import Mathlib

/-!
Shallow embedding of the tenant-routing layer of django-tenants (coopdigital
fork): `django_tenants/postgresql_backend/base.py` (identifier and role-name
validation, the `DatabaseWrapper` routing state and its `_cursor` choke
point) and `django_tenants/management/commands/__init__.py`
(`BaseTenantCommand.handle`, the tenant iteration runner).

Pure Python functions become Lean functions; the mutable wrapper object
becomes explicit state passing; Python exceptions become `Except` results.
-/

namespace DjangoTenants

/-- Python exception classes raised by the embedded code paths. -/
inductive PyError where
  | improperlyConfigured
  | validationError
  | attributeError
  | doesNotExist
  | multipleObjectsReturned
deriving DecidableEq, Repr

/-! ## Identifier and role-name validation (base.py lines 23-42) -/

/-- First character class of `SQL_IDENTIFIER_RE`: `[_a-zA-Z]`. -/
def isIdentStart (c : Char) : Bool :=
  c = '_' || ('a' ≤ c && c ≤ 'z') || ('A' ≤ c && c ≤ 'Z')

/-- Repeated character class of `SQL_IDENTIFIER_RE`: `[_a-zA-Z0-9]`. -/
def isIdentChar (c : Char) : Bool :=
  isIdentStart c || ('0' ≤ c && c ≤ '9')

/-- Full match of the pattern body `[_a-zA-Z][_a-zA-Z0-9]{,62}` against a whole
character list (Python `{,62}` means zero to 62 repetitions, so 63 characters
total at most). -/
def matchesIdentCore : List Char → Bool
  | [] => false
  | c :: rest => isIdentStart c && decide (rest.length ≤ 62) && rest.all isIdentChar

/-- `_is_valid_identifier` from base.py:
`bool(SQL_IDENTIFIER_RE.match(identifier))` with
`SQL_IDENTIFIER_RE = re.compile(r'^[_a-zA-Z][_a-zA-Z0-9]{,62}$')`.
In Python (without `re.MULTILINE`) the `$` anchor matches at the end of the
string or just before one newline at the very end of the string, so a string
consisting of a core match followed by a single trailing newline also
matches. -/
def _is_valid_identifier (s : String) : Bool :=
  matchesIdentCore s.data ||
    (match s.data.getLast? with
     | some c => c = '\n' && matchesIdentCore s.data.dropLast
     | none => false)

/-- `_check_identifier` from base.py: raises `ValidationError` when the
identifier is invalid. -/
def _check_identifier (s : String) : Except PyError Unit :=
  if _is_valid_identifier s = false then Except.error PyError.validationError
  else Except.ok ()

/-- `_is_valid_role_name` from base.py: the body is `return True`
(validation left as a TODO in the source). -/
def _is_valid_role_name (_ : String) : Bool :=
  true

/-- `_check_role_name` from base.py: raises `ValidationError` when
`_is_valid_role_name` is false. -/
def _check_role_name (s : String) : Except PyError Unit :=
  if _is_valid_role_name s = false then Except.error PyError.validationError
  else Except.ok ()

/-! ## Process-wide configuration

`get_public_role_name()` and `get_limit_set_calls()` read Django settings
(in `django_tenants.utils`); `EXTRA_SEARCH_PATHS` reads
`settings.PG_EXTRA_SEARCH_PATHS` once at import. All three are process-wide
constants, bundled here into one configuration record. -/

structure Config where
  public_role_name : String
  extra_search_paths : List String
  limit_set_calls : Bool

/-- `FakeTenant` from base.py: wraps a role name in a tenant-like object. -/
structure FakeTenant where
  role_name : String
deriving DecidableEq, Repr

/-! ## DatabaseWrapper routing state (base.py lines 45-166)

Instance attributes of `DatabaseWrapper` that the routing logic reads and
writes. `search_path_set` starts as `None` and is later `True`/`False`, so it
is an `Option Bool` (Python truthiness: `None` and `False` are both falsy).
`role_name` starts as `None`, so `Option String` (and `""` is falsy too).
`include_public_role` is only ever created by `set_tenant`/`set_role` (the
class-level attribute is named `include_public_schema` and is never read), so
reading it before either setter ran raises `AttributeError`; it is an
`Option Bool` where `none` means "attribute absent".
`_previous_cursor` is the identity of the last physical cursor (class-level
default `None`); cursor identities are modelled as `Nat`.
`settings_dict` is the Django connection settings dictionary. -/

structure DBState where
  search_path_set : Option Bool
  tenant : Option FakeTenant
  role_name : Option String
  include_public_role : Option Bool
  prev_cursor : Option Nat
  settings_dict : String → Option String

/-- Python truthiness of an `Option Bool` attribute. -/
def truthy : Option Bool → Bool
  | none => false
  | some b => b

/-- Dictionary assignment `d[k] = v`. -/
def dictSet (d : String → Option String) (k v : String) : String → Option String :=
  fun q => if q = k then some v else d q

/-- `DatabaseWrapper.set_settings_role`: `self.settings_dict['ROLE'] = role_name`. -/
def set_settings_role (st : DBState) (role : String) : DBState :=
  { st with settings_dict := dictSet st.settings_dict "ROLE" role }

/-- `DatabaseWrapper.set_tenant(tenant, include_public=True)`. -/
def set_tenant (st : DBState) (t : FakeTenant) (include_public : Bool) : DBState :=
  let st1 := { st with tenant := some t, role_name := some t.role_name,
                       include_public_role := some include_public }
  let st2 := set_settings_role st1 t.role_name
  { st2 with search_path_set := some false }

/-- `DatabaseWrapper.set_role(role_name, include_public=True)`: wraps the bare
name in a `FakeTenant` and updates the same attributes as `set_tenant`. -/
def set_role (st : DBState) (role : String) (include_public : Bool) : DBState :=
  let st1 := { st with tenant := some ⟨role⟩, role_name := some role,
                       include_public_role := some include_public }
  let st2 := set_settings_role st1 role
  { st2 with search_path_set := some false }

/-- `DatabaseWrapper.set_role_to_public()`: selects the public role. Note it
does not touch `include_public_role`. -/
def set_role_to_public (cfg : Config) (st : DBState) : DBState :=
  let st1 := { st with tenant := some ⟨cfg.public_role_name⟩,
                       role_name := some cfg.public_role_name }
  let st2 := set_settings_role st1 cfg.public_role_name
  { st2 with search_path_set := some false }

/-- `DatabaseWrapper.close()`: sets `search_path_set = False` before closing
the underlying connection. -/
def closeWrapper (st : DBState) : DBState :=
  { st with search_path_set := some false }

/-- The attribute state of a wrapper before `__init__` runs any setter:
`search_path_set = None`, `tenant = None`, `role_name = None`,
`include_public_role` missing, `_previous_cursor = None`. -/
def blankState (d : String → Option String) : DBState :=
  { search_path_set := none, tenant := none, role_name := none,
    include_public_role := none, prev_cursor := none, settings_dict := d }

/-- `DatabaseWrapper.__init__`: initialises the attributes and then calls
`self.set_role_to_public()`. -/
def initState (cfg : Config) (d : String → Option String) : DBState :=
  set_role_to_public cfg (blankState d)

/-! ## The `_cursor` choke point (base.py lines 112-168, unnamed-cursor path) -/

/-- Outcome of one `_cursor()` call: the returned cursor or the raised
exception, the wrapper state afterwards, and the search-path list of the
`SET search_path` directive if one was attempted (`none` when the cache
suppressed it or an exception fired first). -/
structure CursorResult where
  result : Except PyError Nat
  state : DBState
  issuedPath : Option (List String)

/-- The `try: cursor.execute('SET search_path = ...')` block: on engine
failure the error is swallowed and `search_path_set` becomes `False`,
otherwise `True`. The cursor is returned either way. -/
def issueDirective (st : DBState) (cursor : Nat) (engineOk : Bool)
    (paths : List String) : CursorResult :=
  if engineOk then ⟨Except.ok cursor, { st with search_path_set := some true }, some paths⟩
  else ⟨Except.ok cursor, { st with search_path_set := some false }, some paths⟩

/-- `DatabaseWrapper._cursor()` (unnamed-cursor path). `cursor` is the
identity of the physical cursor handed back by the wrapped backend; `engineOk`
says whether the engine accepts the `SET search_path` statement on this call.
Mirrors the source: the cache test
`(not get_limit_set_calls()) or not self.search_path_set or self._previous_cursor != cursor`,
then `self._previous_cursor = cursor`, the `if not self.role_name` raise,
`_check_role_name`, the three-way search-path computation followed by
`search_paths.extend(EXTRA_SEARCH_PATHS)`, and the guarded execute. -/
def acquireCursor (cfg : Config) (st : DBState) (cursor : Nat) (engineOk : Bool) :
    CursorResult :=
  if cfg.limit_set_calls = false ∨ truthy st.search_path_set = false ∨
      st.prev_cursor ≠ some cursor then
    let st1 := { st with prev_cursor := some cursor }
    match st.role_name with
    | none => ⟨Except.error PyError.improperlyConfigured, st1, none⟩
    | some role =>
      if role = "" then ⟨Except.error PyError.improperlyConfigured, st1, none⟩
      else
        match _check_role_name role with
        | Except.error err => ⟨Except.error err, st1, none⟩
        | Except.ok _ =>
          if role = cfg.public_role_name then
            issueDirective st1 cursor engineOk
              ([cfg.public_role_name] ++ cfg.extra_search_paths)
          else
            match st.include_public_role with
            | none => ⟨Except.error PyError.attributeError, st1, none⟩
            | some true => issueDirective st1 cursor engineOk
                ([role, cfg.public_role_name] ++ cfg.extra_search_paths)
            | some false => issueDirective st1 cursor engineOk
                ([role] ++ cfg.extra_search_paths)
  else ⟨Except.ok cursor, st, none⟩

/-- A run of `n` consecutive `_cursor()` calls on the same physical cursor
with the engine accepting every directive; returns the final state and, per
call, the directive it issued (if any). -/
def acquireTrace (cfg : Config) (h : Nat) : DBState → Nat → DBState × List (Option (List String))
  | st, 0 => (st, [])
  | st, n + 1 =>
    let r := acquireCursor cfg st h true
    let rest := acquireTrace cfg h r.state n
    (rest.1, r.issuedPath :: rest.2)

/-! ## Tenant iteration runner
(`management/commands/__init__.py`, `BaseTenantCommand`) -/

/-- Options of `BaseTenantCommand.handle`: `options['role_name']` (the
`-s --schema` argument, `None` when absent) and `options['skip_public']`
(`-p --skip-public`). -/
structure IterOptions where
  role_name : Option String
  skip_public : Bool

/-- Tenant-routing methods actually defined on `DatabaseWrapper` in base.py.
The wrapped stock Django backend defines none of its own, so an attribute
access on the connection for a routing method outside this list raises
`AttributeError`. -/
def wrapperMethods : List String :=
  ["close", "set_tenant", "set_role", "set_role_to_public", "set_settings_role",
   "get_role", "get_tenant", "_cursor"]

/-- Attribute lookup of a routing method on the connection wrapper. -/
def callRouterMethod (m : String) : Except PyError Unit :=
  if wrapperMethods.contains m then Except.ok ()
  else Except.error PyError.attributeError

/-- `get_tenant_model().objects.get(role_name=name)`: `DoesNotExist` when no
tenant has that name, `MultipleObjectsReturned` when several do. -/
def tenantGet (directory : List FakeTenant) (name : String) :
    Except PyError FakeTenant :=
  match directory.filter (fun t => t.role_name == name) with
  | [] => Except.error PyError.doesNotExist
  | [t] => Except.ok t
  | _ => Except.error PyError.multipleObjectsReturned

/-- The `for tenant in get_tenant_model().objects.all():` loop of
`BaseTenantCommand.handle`: executes the wrapped command for each tenant
unless `options['skip_public'] and tenant.role_name == get_public_role_name()`.
Returns the role names the job was invoked for, in order. -/
def iterateTenants (cfg : Config) (skip_public : Bool) : List FakeTenant → List String
  | [] => []
  | t :: rest =>
    if ¬ (skip_public = true ∧ t.role_name = cfg.public_role_name) then
      t.role_name :: iterateTenants cfg skip_public rest
    else
      iterateTenants cfg skip_public rest

/-- `BaseTenantCommand.handle`: with a truthy `options['role_name']` it first
calls `connection.set_schema_to_public()` — a method that base.py does not
define (base.py defines `set_role_to_public`) — and only then looks the
tenant up and runs the job once; otherwise it iterates all tenants.
Returns the role names the job was invoked for and the exception raised,
if any. -/
def handleCommand (cfg : Config) (directory : List FakeTenant)
    (opts : IterOptions) : List String × Option PyError :=
  match opts.role_name with
  | some name =>
    if name = "" then (iterateTenants cfg opts.skip_public directory, none)
    else
      match callRouterMethod "set_schema_to_public" with
      | Except.error e => ([], some e)
      | Except.ok _ =>
        match tenantGet directory name with
        | Except.error e => ([], some e)
        | Except.ok t => ([t.role_name], none)
  | none => (iterateTenants cfg opts.skip_public directory, none)

/-! ## Concrete fixtures used by witnesses and counterexamples -/

/-- A settings dictionary with no entries. -/
def emptySettings : String → Option String :=
  fun _ => none

/-- Shared name `"public"`, no extra search paths, caching enabled. -/
def cfgW : Config :=
  { public_role_name := "public", extra_search_paths := [], limit_set_calls := true }

/-- Shared name `"public"`, extra search paths `["shared_extra"]` (the literal
example of the spec), caching enabled. -/
def cfgEx : Config :=
  { public_role_name := "public", extra_search_paths := ["shared_extra"],
    limit_set_calls := true }

/-! ## Helper lemmas about `acquireCursor` -/

/-- When the cache test passes, the role is set and non-empty, and the role is
either the public one or `include_public_role` is present, `_cursor` attempts
the directive: it returns the cursor, records it in `_previous_cursor`, and
sets `search_path_set` to the engine outcome. -/
theorem acquire_issues (cfg : Config) (st : DBState) (h : Nat) (e : Bool) (r : String)
    (hcond : cfg.limit_set_calls = false ∨ truthy st.search_path_set = false ∨
      st.prev_cursor ≠ some h)
    (hr : st.role_name = some r) (hr0 : r ≠ "")
    (hb : r = cfg.public_role_name ∨ st.include_public_role ≠ none) :
    ∃ p, acquireCursor cfg st h e =
      ⟨Except.ok h, { st with prev_cursor := some h, search_path_set := some e }, some p⟩ := by
  unfold acquireCursor
  rw [if_pos hcond, hr]
  simp only [_check_role_name, _is_valid_role_name]
  rw [if_neg hr0]
  by_cases hrp : r = cfg.public_role_name
  · refine ⟨cfg.public_role_name :: cfg.extra_search_paths, ?_⟩
    rw [if_pos hrp]
    cases e <;> rfl
  · rw [if_neg hrp]
    rcases hb with hb | hb
    · exact absurd hb hrp
    · cases hinc : st.include_public_role with
      | none => exact absurd hinc hb
      | some b =>
        cases b
        · exact ⟨r :: cfg.extra_search_paths, by cases e <;> rfl⟩
        · exact ⟨r :: cfg.public_role_name :: cfg.extra_search_paths, by cases e <;> rfl⟩

/-- When caching is on, the path is already applied and the cursor identity is
unchanged, `_cursor` is a no-op apart from returning the cursor. -/
theorem acquire_cached_noop (cfg : Config) (st : DBState) (h : Nat) (e : Bool)
    (hl : cfg.limit_set_calls = true) (hs : st.search_path_set = some true)
    (hp : st.prev_cursor = some h) :
    acquireCursor cfg st h e = ⟨Except.ok h, st, none⟩ := by
  unfold acquireCursor
  rw [if_neg]
  push_neg
  refine ⟨by rw [hl]; simp, by rw [hs]; simp [truthy], by rw [hp]⟩

/-- A cached steady state stays fixed across any number of `_cursor` calls on
the same cursor, issuing no directive. -/
theorem trace_steady (cfg : Config) (st : DBState) (h : Nat)
    (hl : cfg.limit_set_calls = true) (hs : st.search_path_set = some true)
    (hp : st.prev_cursor = some h) :
    ∀ n, acquireTrace cfg h st n = (st, List.replicate n none) := by
  intro n
  induction n with
  | zero => rfl
  | succ k ih =>
    unfold acquireTrace
    rw [acquire_cached_noop cfg st h true hl hs hp]
    simp [ih, List.replicate]

/-- The directive is not attempted when an `ImproperlyConfigured` error fires:
`role_name` unset. -/
theorem acquire_not_configured (cfg : Config) (st : DBState) (h : Nat) (e : Bool)
    (hcond : cfg.limit_set_calls = false ∨ truthy st.search_path_set = false ∨
      st.prev_cursor ≠ some h)
    (hr : st.role_name = none) :
    acquireCursor cfg st h e =
      ⟨Except.error PyError.improperlyConfigured,
        { st with prev_cursor := some h }, none⟩ := by
  unfold acquireCursor
  rw [if_pos hcond, hr]

/-- Issued search-path when the active role is the public one. -/
theorem acquire_path_public (cfg : Config) (st : DBState) (h : Nat) (e : Bool)
    (hcond : cfg.limit_set_calls = false ∨ truthy st.search_path_set = false ∨
      st.prev_cursor ≠ some h)
    (hr : st.role_name = some cfg.public_role_name)
    (h0 : cfg.public_role_name ≠ "") :
    (acquireCursor cfg st h e).issuedPath =
      some (cfg.public_role_name :: cfg.extra_search_paths) := by
  unfold acquireCursor
  rw [if_pos hcond, hr]
  cases e <;> simp [_check_role_name, _is_valid_role_name, h0, issueDirective]

/-- Issued search-path for a non-public role with `include_public_role = True`. -/
theorem acquire_path_tenant (cfg : Config) (st : DBState) (h : Nat) (e : Bool) (r : String)
    (hcond : cfg.limit_set_calls = false ∨ truthy st.search_path_set = false ∨
      st.prev_cursor ≠ some h)
    (hr : st.role_name = some r) (hr0 : r ≠ "") (hrp : r ≠ cfg.public_role_name)
    (hinc : st.include_public_role = some true) :
    (acquireCursor cfg st h e).issuedPath =
      some (r :: cfg.public_role_name :: cfg.extra_search_paths) := by
  unfold acquireCursor
  rw [if_pos hcond, hr]
  cases e <;>
    simp [_check_role_name, _is_valid_role_name, hr0, hrp, hinc, issueDirective]

/-- Issued search-path for a non-public role with `include_public_role = False`. -/
theorem acquire_path_tenant_only (cfg : Config) (st : DBState) (h : Nat) (e : Bool) (r : String)
    (hcond : cfg.limit_set_calls = false ∨ truthy st.search_path_set = false ∨
      st.prev_cursor ≠ some h)
    (hr : st.role_name = some r) (hr0 : r ≠ "") (hrp : r ≠ cfg.public_role_name)
    (hinc : st.include_public_role = some false) :
    (acquireCursor cfg st h e).issuedPath = some (r :: cfg.extra_search_paths) := by
  unfold acquireCursor
  rw [if_pos hcond, hr]
  cases e <;>
    simp [_check_role_name, _is_valid_role_name, hr0, hrp, hinc, issueDirective]

/-! ## Characters the spec forbids in identifiers -/

/-- Whitespace, semicolon and quote characters, the classes claim C3 says an
identifier must not contain. -/
def isForbiddenChar (c : Char) : Bool :=
  c = ' ' || c = '\t' || c = '\n' || c = '\r' || c = ';' || c = '\'' || c = '"'

/-- The character list of a string with one trailing newline removed, when
present: the part of the string that Python end-anchored matching actually
constrains. -/
def stripTrailingNewline (s : String) : List Char :=
  match s.data.getLast? with
  | some c => if c = '\n' then s.data.dropLast else s.data
  | none => s.data

theorem forbidden_not_ident (c : Char) (hc : isForbiddenChar c = true) :
    isIdentStart c = false ∧ isIdentChar c = false := by
  simp only [isForbiddenChar, Bool.or_eq_true, decide_eq_true_eq] at hc
  rcases hc with ((((((h | h) | h) | h) | h) | h) | h) <;> subst h <;>
    exact ⟨by decide, by decide⟩

theorem core_false_of_forbidden (l : List Char) (hl : l.any isForbiddenChar = true) :
    matchesIdentCore l = false := by
  cases l with
  | nil => rfl
  | cons c rest =>
    simp only [List.any_cons, Bool.or_eq_true] at hl
    rcases hl with hc | hrest
    · simp [matchesIdentCore, (forbidden_not_ident c hc).1]
    · obtain ⟨x, hx, hbad⟩ := List.any_eq_true.mp hrest
      have hxn : isIdentChar x = false := (forbidden_not_ident x hbad).2
      have hall : rest.all isIdentChar = false := by
        rw [Bool.eq_false_iff]
        intro hcontra
        have := List.all_eq_true.mp hcontra x hx
        rw [hxn] at this
        exact Bool.false_ne_true this
      simp [matchesIdentCore, hall]

theorem core_false_of_long (l : List Char) (hl : 63 < l.length) :
    matchesIdentCore l = false := by
  cases l with
  | nil => rfl
  | cons c rest =>
    have hlen : ¬ rest.length ≤ 62 := by
      simp only [List.length_cons] at hl
      omega
    simp [matchesIdentCore, hlen]

/-! ## Claim theorems -/

/-- Claim C3 counterexample: the string `"a\n"` contains whitespace (a
newline), yet `_is_valid_identifier` returns `true` on it, because the
Python `$` anchor also matches just before one trailing newline. So the
claim "for every string that contains whitespace ... isValidIdentifier
returns false" is false as stated. -/
theorem C3_counterexample :
    "a\n".data.any isForbiddenChar = true ∧ _is_valid_identifier "a\n" = true := by
  constructor
  · decide
  · decide

/-- Claim C3 (amended): every string fully matching
`[A-Za-z_][A-Za-z0-9_]{0,62}` is accepted by `_is_valid_identifier`; and
every string that — after discarding at most one trailing newline — contains
whitespace, a semicolon or a quote, or is longer than 63 characters, is
rejected. -/
theorem C3_identifier_validation (s : String) :
    (matchesIdentCore s.data = true → _is_valid_identifier s = true) ∧
    ((stripTrailingNewline s).any isForbiddenChar = true ∨
        63 < (stripTrailingNewline s).length →
      _is_valid_identifier s = false) := by
  constructor
  · intro hcore
    simp [_is_valid_identifier, hcore]
  · intro hbad
    have hstrip : matchesIdentCore (stripTrailingNewline s) = false := by
      rcases hbad with hb | hb
      · exact core_false_of_forbidden _ hb
      · exact core_false_of_long _ hb
    cases hlast : s.data.getLast? with
    | none =>
      have hdata : stripTrailingNewline s = s.data := by
        simp [stripTrailingNewline, hlast]
      rw [hdata] at hstrip
      simp [_is_valid_identifier, hlast, hstrip]
    | some c =>
      by_cases hnl : c = '\n'
      · subst hnl
        have hdata : stripTrailingNewline s = s.data.dropLast := by
          simp [stripTrailingNewline, hlast]
        rw [hdata] at hstrip
        have hsplit : s.data.dropLast ++ ['\n'] = s.data :=
          List.dropLast_append_getLast? _ (by simp [Option.mem_def, hlast])
        have hmem : '\n' ∈ s.data := by
          rw [← hsplit]
          exact List.mem_append_right _ (List.mem_singleton_self _)
        have hfull : matchesIdentCore s.data = false :=
          core_false_of_forbidden _ (List.any_eq_true.mpr ⟨'\n', hmem, by decide⟩)
        simp [_is_valid_identifier, hlast, hstrip, hfull]
      · have hdata : stripTrailingNewline s = s.data := by
          simp [stripTrailingNewline, hlast, hnl]
        rw [hdata] at hstrip
        simp [_is_valid_identifier, hlast, hstrip, hnl]

/-- Claim C3 witness: a plain identifier is accepted; a string with a
semicolon is rejected. -/
theorem C3_identifier_validation_witness :
    _is_valid_identifier "acme_tenant" = true ∧ _is_valid_identifier "a;b" = false :=
  ⟨(C3_identifier_validation "acme_tenant").1 (by decide),
   (C3_identifier_validation "a;b").2 (Or.inl (by decide))⟩

/-- Claim C7: role-name validation is a pass-through — `_is_valid_role_name`
returns `true` for every string and `_check_role_name` raises nothing. -/
theorem C7_role_name_passthrough (s : String) :
    _is_valid_role_name s = true ∧ _check_role_name s = Except.ok () :=
  ⟨rfl, rfl⟩

/-- Claim C1 counterexample: with shared name `"public"` and extra search
paths `["shared_extra"]`, `set_role_to_public` followed by `_cursor` issues
the search path `["public", "shared_extra"]`, not `["public"]`:
`search_paths.extend(EXTRA_SEARCH_PATHS)` runs in the public-role branch
too, so the claim that no extra paths are appended after
`setRoleToPublic` is false. -/
theorem C1_counterexample :
    (acquireCursor cfgEx (set_role_to_public cfgEx (blankState emptySettings)) 1
        true).issuedPath = some ["public", "shared_extra"] ∧
    (acquireCursor cfgEx (set_role_to_public cfgEx (blankState emptySettings)) 1
        true).issuedPath ≠ some ["public"] := by
  constructor
  · decide
  · decide

/-- Claim C1 (amended): the search path computed at the next `_cursor` call
is `[sharedName] ++ extras` after `set_role_to_public`,
`[r, sharedName] ++ extras` after `set_role r` with `include_public = True`
(for `r` distinct from the shared name), and `[r] ++ extras` after
`set_role r` with `include_public = False` — the configured extra paths are
appended in configuration order in all three cases. -/
theorem C1_search_path_contents (cfg : Config) (st st2 st3 : DBState) (h : Nat)
    (e : Bool) (r : String) (hpub : cfg.public_role_name ≠ "") (hr0 : r ≠ "")
    (hrp : r ≠ cfg.public_role_name) :
    (acquireCursor cfg (set_role_to_public cfg st) h e).issuedPath
        = some (cfg.public_role_name :: cfg.extra_search_paths) ∧
    (acquireCursor cfg (set_role st2 r true) h e).issuedPath
        = some (r :: cfg.public_role_name :: cfg.extra_search_paths) ∧
    (acquireCursor cfg (set_role st3 r false) h e).issuedPath
        = some (r :: cfg.extra_search_paths) := by
  refine ⟨?_, ?_, ?_⟩
  · exact acquire_path_public cfg _ h e (Or.inr (Or.inl rfl)) rfl hpub
  · exact acquire_path_tenant cfg _ h e r (Or.inr (Or.inl rfl)) rfl hr0 hrp rfl
  · exact acquire_path_tenant_only cfg _ h e r (Or.inr (Or.inl rfl)) rfl hr0 hrp rfl

/-- Claim C1 witness: the three search-path shapes at the literal example of
the spec (shared name `"public"`, extras `["shared_extra"]`, role `"acme"`). -/
theorem C1_search_path_contents_witness :
    (acquireCursor cfgEx (set_role_to_public cfgEx (blankState emptySettings)) 2
        true).issuedPath = some ["public", "shared_extra"] ∧
    (acquireCursor cfgEx (set_role (blankState emptySettings) "acme" true) 2
        true).issuedPath = some ["acme", "public", "shared_extra"] ∧
    (acquireCursor cfgEx (set_role (blankState emptySettings) "acme" false) 2
        true).issuedPath = some ["acme", "shared_extra"] :=
  C1_search_path_contents cfgEx (blankState emptySettings) (blankState emptySettings)
    (blankState emptySettings) 2 true "acme" (by decide) (by decide) (by decide)

/-- Unfolding equation for one step of `acquireTrace`. -/
theorem acquireTrace_succ (cfg : Config) (h : Nat) (st : DBState) (n : Nat) :
    acquireTrace cfg h st (n + 1)
      = ((acquireTrace cfg h (acquireCursor cfg st h true).state n).1,
         (acquireCursor cfg st h true).issuedPath ::
           (acquireTrace cfg h (acquireCursor cfg st h true).state n).2) := rfl

/-- Claim C2: with caching enabled (`get_limit_set_calls()` true), over any
run of `_cursor` calls on one fixed physical cursor, starting from a state
whose search path is not yet applied and whose routing selection stays
unchanged, the `SET search_path` directive is issued on the first call (and
succeeds) and on no later call. -/
theorem C2_cache_single_issue (cfg : Config) (st : DBState) (h n : Nat) (r : String)
    (hl : cfg.limit_set_calls = true)
    (hs : truthy st.search_path_set = false)
    (hr : st.role_name = some r) (hr0 : r ≠ "")
    (hb : r = cfg.public_role_name ∨ st.include_public_role ≠ none) :
    (acquireCursor cfg st h true).issuedPath ≠ none ∧
    (acquireTrace cfg h st (n + 1)).2
      = (acquireCursor cfg st h true).issuedPath :: List.replicate n none := by
  obtain ⟨p, heq⟩ := acquire_issues cfg st h true r (Or.inr (Or.inl hs)) hr hr0 hb
  constructor
  · rw [heq]
    simp
  · rw [acquireTrace_succ]
    have hsteady := trace_steady cfg
      { st with prev_cursor := some h, search_path_set := some true } h hl rfl rfl n
    simp only [heq, hsteady]

/-- Claim C2 witness: after `set_role "acme"`, a run of three `_cursor`
calls on cursor 5 issues the directive exactly on the first call. -/
theorem C2_cache_single_issue_witness :
    (acquireCursor cfgW (set_role (blankState emptySettings) "acme" true) 5
        true).issuedPath ≠ none ∧
    (acquireTrace cfgW 5 (set_role (blankState emptySettings) "acme" true) 3).2
      = (acquireCursor cfgW (set_role (blankState emptySettings) "acme" true) 5
          true).issuedPath :: List.replicate 2 none :=
  C2_cache_single_issue cfgW (set_role (blankState emptySettings) "acme" true) 5 2
    "acme" rfl rfl rfl (by decide) (Or.inr (by decide))

/-- Claim C4: with caching enabled and the routing selection unchanged, if
the physical cursor of the second `_cursor` call differs in identity from
the one recorded at the first call, the directive is issued again on the
second call. -/
theorem C4_recycled_handle_reissues (cfg : Config) (st : DBState) (h1 h2 : Nat)
    (r : String) (_hl : cfg.limit_set_calls = true)
    (hs : truthy st.search_path_set = false)
    (hr : st.role_name = some r) (hr0 : r ≠ "")
    (hb : r = cfg.public_role_name ∨ st.include_public_role ≠ none)
    (hne : h2 ≠ h1) :
    (acquireCursor cfg (acquireCursor cfg st h1 true).state h2 true).issuedPath
      ≠ none := by
  obtain ⟨p, heq⟩ := acquire_issues cfg st h1 true r (Or.inr (Or.inl hs)) hr hr0 hb
  obtain ⟨q, heq2⟩ := acquire_issues cfg
      { st with prev_cursor := some h1, search_path_set := some true } h2 true r
      (Or.inr (Or.inr (by simpa using Ne.symm hne))) hr hr0 hb
  simp only [heq]
  simp only [heq2]
  simp

/-- Claim C4 witness: cursor identity 1 then 2 with unchanged selection
forces a second issuance. -/
theorem C4_recycled_handle_reissues_witness :
    (acquireCursor cfgW
        (acquireCursor cfgW (set_role (blankState emptySettings) "acme" true) 1
          true).state 2 true).issuedPath ≠ none :=
  C4_recycled_handle_reissues cfgW (set_role (blankState emptySettings) "acme" true)
    1 2 "acme" rfl rfl rfl (by decide) (Or.inr (by decide)) (by decide)

/-- Claim C5 counterexample: `DatabaseWrapper.__init__` itself calls
`set_role_to_public()`, so on a wrapper the caller never configured,
`_cursor` does not raise `ImproperlyConfigured`: it returns the cursor and
issues the shared-namespace directive. The claim as stated is false. -/
theorem C5_counterexample :
    (acquireCursor cfgW (initState cfgW emptySettings) 1 true).result
      = Except.ok 1 ∧
    (acquireCursor cfgW (initState cfgW emptySettings) 1 true).issuedPath ≠ none := by
  constructor
  · rfl
  · decide

/-- Claim C5 (amended): because the constructor invokes `set_role_to_public`,
a freshly constructed wrapper already has the shared namespace selected, so
the first `_cursor` call succeeds and issues the shared-namespace directive;
the `ImproperlyConfigured` (no tenant selected) error fires, with no
directive issued, only in a state whose `role_name` is unset — a state not
reachable by merely making no selection calls. -/
theorem C5_fresh_router_selected (cfg : Config) (d : String → Option String)
    (h h2 : Nat) (st0 : DBState) (hpub : cfg.public_role_name ≠ "")
    (hr0 : st0.role_name = none)
    (hc0 : cfg.limit_set_calls = false ∨ truthy st0.search_path_set = false ∨
      st0.prev_cursor ≠ some h2) :
    (acquireCursor cfg (initState cfg d) h true).result = Except.ok h ∧
    (acquireCursor cfg (initState cfg d) h true).issuedPath
      = some (cfg.public_role_name :: cfg.extra_search_paths) ∧
    (acquireCursor cfg st0 h2 true).result
      = Except.error PyError.improperlyConfigured ∧
    (acquireCursor cfg st0 h2 true).issuedPath = none := by
  obtain ⟨p, heq⟩ := acquire_issues cfg (initState cfg d) h true cfg.public_role_name
      (Or.inr (Or.inl rfl)) rfl hpub (Or.inl rfl)
  have herr := acquire_not_configured cfg st0 h2 true hc0 hr0
  refine ⟨by rw [heq], ?_, by rw [herr], by rw [herr]⟩
  exact acquire_path_public cfg (initState cfg d) h true (Or.inr (Or.inl rfl)) rfl hpub

/-- Claim C5 witness: concrete fresh wrapper versus a state with `role_name`
unset. -/
theorem C5_fresh_router_selected_witness :
    (acquireCursor cfgW (initState cfgW emptySettings) 3 true).result
      = Except.ok 3 ∧
    (acquireCursor cfgW (initState cfgW emptySettings) 3 true).issuedPath
      = some ["public"] ∧
    (acquireCursor cfgW (blankState emptySettings) 4 true).result
      = Except.error PyError.improperlyConfigured ∧
    (acquireCursor cfgW (blankState emptySettings) 4 true).issuedPath = none :=
  C5_fresh_router_selected cfgW emptySettings 3 4 (blankState emptySettings)
    (by decide) rfl (Or.inr (Or.inl rfl))

/-- Claim C6: when the engine rejects the `SET search_path` statement,
`_cursor` swallows the error — it still returns the physical cursor — and
records `search_path_set = False`, so the next `_cursor` call issues the
directive again (for any cursor identity and engine outcome). -/
theorem C6_engine_failure_swallowed (cfg : Config) (st : DBState) (h h2 : Nat)
    (e2 : Bool) (r : String)
    (hs : truthy st.search_path_set = false)
    (hr : st.role_name = some r) (hr0 : r ≠ "")
    (hb : r = cfg.public_role_name ∨ st.include_public_role ≠ none) :
    (acquireCursor cfg st h false).result = Except.ok h ∧
    (acquireCursor cfg st h false).issuedPath ≠ none ∧
    (acquireCursor cfg st h false).state.search_path_set = some false ∧
    (acquireCursor cfg (acquireCursor cfg st h false).state h2 e2).issuedPath
      ≠ none := by
  obtain ⟨p, heq⟩ := acquire_issues cfg st h false r (Or.inr (Or.inl hs)) hr hr0 hb
  obtain ⟨q, heq2⟩ := acquire_issues cfg
      { st with prev_cursor := some h, search_path_set := some false } h2 e2 r
      (Or.inr (Or.inl rfl)) hr hr0 hb
  refine ⟨by rw [heq], ?_, by rw [heq], ?_⟩
  · rw [heq]
    simp
  · simp only [heq]
    simp only [heq2]
    simp

/-- Claim C6 witness: engine failure at cursor 1, then re-issuance at
cursor 2. -/
theorem C6_engine_failure_swallowed_witness :
    (acquireCursor cfgW (set_role (blankState emptySettings) "acme" true) 1
        false).result = Except.ok 1 ∧
    (acquireCursor cfgW (set_role (blankState emptySettings) "acme" true) 1
        false).issuedPath ≠ none ∧
    (acquireCursor cfgW (set_role (blankState emptySettings) "acme" true) 1
        false).state.search_path_set = some false ∧
    (acquireCursor cfgW
        (acquireCursor cfgW (set_role (blankState emptySettings) "acme" true) 1
          false).state 2 true).issuedPath ≠ none :=
  C6_engine_failure_swallowed cfgW (set_role (blankState emptySettings) "acme" true)
    1 2 true "acme" rfl rfl (by decide) (Or.inr (by decide))

/-- In all-tenants mode with `skip_public` set, the loop visits the directory
in order and executes exactly the tenants whose name differs from the shared
one. -/
theorem iterateTenants_skip_eq_filter (cfg : Config) (l : List FakeTenant) :
    iterateTenants cfg true l
      = (l.filter (fun t => t.role_name != cfg.public_role_name)).map
          FakeTenant.role_name := by
  induction l with
  | nil => rfl
  | cons t rest ih =>
    by_cases hp : t.role_name = cfg.public_role_name
    · simp [iterateTenants, hp, ih]
    · simp [iterateTenants, hp, ih]

/-- Claim C8: in all-tenants mode with `skip_public`, `handle` invokes the
job exactly for the tenants whose name differs from the shared namespace
name, in directory order; on directory
`["public", "acme", "globex"]` with shared name `"public"` the job runs for
`["acme", "globex"]`. -/
theorem C8_all_tenants_skip_shared (cfg : Config) (dir : List FakeTenant) :
    handleCommand cfg dir ⟨none, true⟩
      = ((dir.filter (fun t => t.role_name != cfg.public_role_name)).map
          FakeTenant.role_name, none) ∧
    handleCommand cfgW [⟨"public"⟩, ⟨"acme"⟩, ⟨"globex"⟩] ⟨none, true⟩
      = (["acme", "globex"], none) := by
  constructor
  · simp [handleCommand, iterateTenants_skip_eq_filter]
  · rfl

/-- Claim C9 (code bug): in single-tenant mode `handle` calls
`connection.set_schema_to_public()`, but base.py defines
`set_role_to_public` and no `set_schema_to_public`, so the call raises
`AttributeError` before the directory lookup: the job is invoked zero times
and the error is `AttributeError`, not `DoesNotExist` — whether the
requested name (here `"acme"` in `["public", "globex"]`) is absent or
(`"globex"`) present. -/
theorem C9_single_mode_attribute_error :
    handleCommand cfgW [⟨"public"⟩, ⟨"globex"⟩] ⟨some "acme", false⟩
      = ([], some PyError.attributeError) ∧
    handleCommand cfgW [⟨"public"⟩, ⟨"globex"⟩] ⟨some "globex", false⟩
      = ([], some PyError.attributeError) :=
  ⟨rfl, rfl⟩

/-- Claim C10: `set_tenant`, `set_role` and `set_role_to_public` each write
the newly selected role name under the `'ROLE'` key of `settings_dict` and
leave every other key unchanged. -/
theorem C10_settings_role_frame (cfg : Config) (st : DBState) (t : FakeTenant)
    (r : String) (b b2 : Bool) (k : String) (hk : k ≠ "ROLE") :
    (set_tenant st t b).settings_dict "ROLE" = some t.role_name ∧
    (set_tenant st t b).settings_dict k = st.settings_dict k ∧
    (set_role st r b2).settings_dict "ROLE" = some r ∧
    (set_role st r b2).settings_dict k = st.settings_dict k ∧
    (set_role_to_public cfg st).settings_dict "ROLE" = some cfg.public_role_name ∧
    (set_role_to_public cfg st).settings_dict k = st.settings_dict k := by
  refine ⟨?_, ?_, ?_, ?_, ?_, ?_⟩ <;>
    simp [set_tenant, set_role, set_role_to_public, set_settings_role, dictSet, hk]

/-- Claim C10 witness: the three setters at concrete inputs, checked on the
`'ROLE'` key and on the unrelated `'NAME'` key. -/
theorem C10_settings_role_frame_witness :
    (set_tenant (blankState emptySettings) ⟨"acme"⟩ true).settings_dict "ROLE"
      = some "acme" ∧
    (set_tenant (blankState emptySettings) ⟨"acme"⟩ true).settings_dict "NAME"
      = (blankState emptySettings).settings_dict "NAME" ∧
    (set_role (blankState emptySettings) "globex" false).settings_dict "ROLE"
      = some "globex" ∧
    (set_role (blankState emptySettings) "globex" false).settings_dict "NAME"
      = (blankState emptySettings).settings_dict "NAME" ∧
    (set_role_to_public cfgW (blankState emptySettings)).settings_dict "ROLE"
      = some "public" ∧
    (set_role_to_public cfgW (blankState emptySettings)).settings_dict "NAME"
      = (blankState emptySettings).settings_dict "NAME" :=
  C10_settings_role_frame cfgW (blankState emptySettings) ⟨"acme"⟩ "globex" true false
    "NAME" (by decide)

end DjangoTenants
